import Mathlib

/-!
Shallow embedding of the StoriesWall bot's creation pipeline (src/main.py):
the pending-creation store, the conversational handlers, the pricing rule,
the tiling-engine geometry, and the queue worker, together with theorems
settling the spec claims C1-C10.

Numeric conventions: Python's float aspect-ratio comparison and its
truncating `int(...)` conversion are modelled by exact rational comparison
via cross multiplication and by natural-number floor division (every
quantity involved is nonnegative, so floor equals truncation).  Python's
floor division on possibly negative integers is modelled by Int.fdiv.
-/

/-! ### Constants (src/main.py lines 31-37, 630-632) -/

def PRICE_21_PARTS : Nat := 15

def PRICE_AFTER_2_FREE : Nat := 10

def PRICE_LARGE_FILE : Nat := 10

def FILE_SIZE_LIMIT_MB : Nat := 4

def PIECE_WIDTH : Nat := 1080

def PIECE_HEIGHT : Nat := 1342

def TARGET_WIDTH : Nat := 1080

def TARGET_HEIGHT : Nat := 1920

def GRID_COLS : Nat := 3

/-! ### Tiling engine (heavy_processing_task, src/main.py lines 628-668) -/

/-- Model of the Python format `f"story_{n:02d}"` padding for n < 100. -/
def pad2 (n : Nat) : String :=
  if n < 10 then "0" ++ Nat.repr n else Nat.repr n

/-- One saved output frame: its filename, frame dimensions, the canvas crop
region origin it shows and the paste offset inside the frame. -/
structure OutputImage where
  filename : String
  width : Nat
  height : Nat
  cropX : Nat
  cropY : Nat
  pasteX : Nat
  pasteY : Nat
deriving DecidableEq

/-- The body of the output loop of heavy_processing_task for cell index i
(row = i / 3, col = i % 3, crop origin (col*PIECE_WIDTH, row*PIECE_HEIGHT),
paste offset ((TARGET_WIDTH-PIECE_WIDTH)/2, (TARGET_HEIGHT-PIECE_HEIGHT)/2),
filename story_{i+1:02d}.png). -/
def tilePiece (i : Nat) : OutputImage :=
  { filename := "story_" ++ pad2 (i + 1) ++ ".png"
    width := TARGET_WIDTH
    height := TARGET_HEIGHT
    cropX := (i % GRID_COLS) * PIECE_WIDTH
    cropY := (i / GRID_COLS) * PIECE_HEIGHT
    pasteX := (TARGET_WIDTH - PIECE_WIDTH) / 2
    pasteY := (TARGET_HEIGHT - PIECE_HEIGHT) / 2 }

structure TilingResult where
  canvasW : Nat
  canvasH : Nat
  scaledW : Nat
  scaledH : Nat
  offsetX : Int
  offsetY : Int
  outputs : List OutputImage
deriving DecidableEq

/-- Model of heavy_processing_task: the source canvas is GRID_COLS x rows cells; the
source image of size srcW x srcH is scaled according to fit_mode exactly as
in the Python code: img_aspect <= content_aspect is the cross-multiplied
comparison srcW * canvasH <= canvasW * srcH, and int(x / aspect) resp.
int(y * aspect) are the floor divisions canvasW * srcH / srcW resp.
canvasH * srcW / srcH. -/
def heavy_processing_task (fit_mode : String) (srcW srcH parts : Nat) : TilingResult :=
  let rows := parts / 3
  let W := PIECE_WIDTH * GRID_COLS
  let H := PIECE_HEIGHT * rows
  let aspectLe := decide (srcW * H ≤ W * srcH)
  let new_height :=
    if fit_mode = "cover" then (if aspectLe then H else W * srcH / srcW)
    else (if aspectLe then W * srcH / srcW else H)
  let new_width :=
    if fit_mode = "cover" then (if aspectLe then H * srcW / srcH else W)
    else (if aspectLe then W else H * srcW / srcH)
  { canvasW := W
    canvasH := H
    scaledW := new_width
    scaledH := new_height
    offsetX := Int.fdiv ((W : Int) - (new_width : Int)) 2
    offsetY := Int.fdiv ((H : Int) - (new_height : Int)) 2
    outputs := (List.range parts).map tilePiece }

/-- The fixed set of part counts offered by the keyboard. -/
def validParts : List Nat := [3, 6, 9, 12, 15, 18, 21]

/-- Strict lexicographic order on char lists (filename ordering). -/
def charsLt : List Char → List Char → Bool
  | _, [] => false
  | [], _ :: _ => true
  | a :: as, b :: bs =>
      if a.toNat < b.toNat then true
      else if a.toNat = b.toNat then charsLt as bs
      else false

def strLt (a b : String) : Bool := charsLt a.data b.data

theorem heavy_outputs_eq (fit_mode : String) (srcW srcH parts : Nat) :
    (heavy_processing_task fit_mode srcW srcH parts).outputs =
      (List.range parts).map tilePiece := rfl

/-! ### Callback payload parsing (handle_parts_selection line 425,
handle_fit_mode_selection line 451: callback.data.split("_")[1]) -/

/-- Python str.split(sep) for a single-char separator, over the char list. -/
def splitChars (sep : Char) : List Char → List (List Char)
  | [] => [[]]
  | c :: rest =>
      let r := splitChars sep rest
      if c = sep then [] :: r
      else
        match r with
        | [] => [[c]]
        | g :: gs => (c :: g) :: gs

def pySplit (s : String) (sep : Char) : List String :=
  (splitChars sep s.data).map String.mk

/-- Digit run to number; none when empty or a non-digit occurs. -/
def digitsToNat (l : List Char) : Option Nat :=
  if l = [] then none
  else if l.all Char.isDigit then
    some (l.foldl (fun a c => a * 10 + (c.toNat - 48)) 0)
  else none

/-- Python int(s) on a decimal literal with optional sign; none models a
ValueError being raised. -/
def pyInt (s : String) : Option Int :=
  match s.data with
  | '-' :: rest => (digitsToNat rest).map (fun n => -(n : Int))
  | '+' :: rest => (digitsToNat rest).map (fun n => (n : Int))
  | l => (digitsToNat l).map (fun n => (n : Int))

/-- Bool test that p is a prefix of s (router F.data.startswith filters). -/
def strStarts (s p : String) : Bool := p.data.isPrefixOf s.data

/-- Python indexing [1] on a split result; it always exists under the
startswith router filters, so the fallback is never reached there. -/
def pyIndex1 (l : List String) : String :=
  match l with
  | _ :: x :: _ => x
  | _ => ""

/-! ### Data model: the pending-creation record (the dict built in
handle_image, lines 375-381, later extended with "parts" and "fit_mode") -/

structure CreationData where
  temp_dir_path : String
  image_path : String
  imageW : Nat
  imageH : Nat
  is_large_file : Bool
  parts : Option Int
  fit_mode : Option String
deriving DecidableEq

inductive FsmState
  | idle
  | waiting_image
  | waiting_parts_selection
  | waiting_fit_mode
  | waiting_final_confirmation
  | waiting_payment
deriving DecidableEq

/-- The mutable world the handlers touch: the PendingCreation dict
(pending), the per-user aiogram FSM state, and the set of temp directories
existing on disk. -/
structure BotState where
  pending : Nat → Option CreationData
  fsm : Nat → FsmState
  dirs : List String

def initState : BotState :=
  { pending := fun _ => none, fsm := fun _ => FsmState.idle, dirs := [] }

def setFsm (s : BotState) (uid : Nat) (v : FsmState) : BotState :=
  { s with fsm := fun u => if u = uid then v else s.fsm u }

def setPending (s : BotState) (uid : Nat) (v : Option CreationData) : BotState :=
  { s with pending := fun u => if u = uid then v else s.pending u }

/-! ### Pending-Creation Store (class PendingCreation, lines 142-167) -/

def PendingCreation.get (s : BotState) (user_id : Nat) : Option CreationData :=
  s.pending user_id

def PendingCreation.has_pending (s : BotState) (user_id : Nat) : Bool :=
  (s.pending user_id).isSome

/-- Model of remove(user_id, cleanup_files): when a record exists, optionally delete
its temp directory tree (shutil.rmtree, best effort) and drop the dict
entry; a no-op when no record exists. -/
def PendingCreation.remove (s : BotState) (user_id : Nat) (cleanup_files : Bool) : BotState :=
  match s.pending user_id with
  | none => s
  | some r =>
      { pending := fun u => if u = user_id then none else s.pending u
        fsm := s.fsm
        dirs := if cleanup_files then s.dirs.filter (fun d => d != r.temp_dir_path) else s.dirs }

/-! ### Pricing (handle_create_now, lines 518-533) -/

def total_price (created_count : Nat) (parts : Int) (is_large_file is_admin : Bool) : Nat :=
  let needs_payment := 2 ≤ created_count ∧ is_admin = false
  let needs_21_payment := parts = 21 ∧ is_admin = false
  let needs_large_file_payment := is_large_file = true ∧ is_admin = false
  (if needs_payment then PRICE_AFTER_2_FREE else 0) +
    (if needs_21_payment then PRICE_21_PARTS else 0) +
    (if needs_large_file_payment then PRICE_LARGE_FILE else 0)

/-! ### Conversational handlers -/

inductive Reply
  | discardPrompt
  | uploadPrompt
  | notImageMsg
  | decodeFailMsg
  | partsPrompt
  | fitPrompt
  | confirmPrompt
  | invoiceOffer
  | queuedMsg
  | noDataAlert
  | noDataMsg
  | mainMenu
deriving DecidableEq

structure Job where
  user_id : Nat
  creation_data : CreationData
  is_paid : Bool
deriving DecidableEq

/-- What one dispatched update produces: the successor state, the messages
shown to the user, the PendingCreation.remove calls that were issued
(user, cleanup_files flag), and the jobs put on the queue. -/
structure StepOut where
  state : BotState
  replies : List Reply
  removeCalls : List (Nat × Bool)
  enqueued : List Job

def noop (s : BotState) : StepOut :=
  { state := s, replies := [], removeCalls := [], enqueued := [] }

/-- Model of start_creation (lines 298-323): with an existing pending creation the
user is shown the explicit discard-confirmation prompt and nothing changes;
otherwise the FSM moves to waiting_image. -/
def start_creation (s : BotState) (uid : Nat) : StepOut :=
  if PendingCreation.has_pending s uid then
    { state := s, replies := [Reply.discardPrompt], removeCalls := [], enqueued := [] }
  else
    { state := setFsm s uid FsmState.waiting_image, replies := [Reply.uploadPrompt]
      removeCalls := [], enqueued := [] }

/-- Model of cancel_and_start (lines 326-330): remove(uid) with default
cleanup_files=True, state.clear(), then start_creation. -/
def cancel_and_start (s : BotState) (uid : Nat) : StepOut :=
  let s1 := PendingCreation.remove s uid true
  let s2 := setFsm s1 uid FsmState.idle
  let out := start_creation s2 uid
  { out with removeCalls := (uid, true) :: out.removeCalls }

/-- Model of cancel_creation (lines 333-337): state.clear() then remove(uid) with
default cleanup_files=True, then the main menu. -/
def cancel_creation (s : BotState) (uid : Nat) : StepOut :=
  let s1 := setFsm s uid FsmState.idle
  let s2 := PendingCreation.remove s1 uid true
  { state := s2, replies := [Reply.mainMenu], removeCalls := [(uid, true)], enqueued := [] }

/-- Model of handle_image (lines 339-418): reject non-image input; mkdir a fresh
temp dir, save the file, decode it (on failure rmtree the dir and stay);
on success store the PendingCreation record and move to
waiting_parts_selection. -/
def handle_image (s : BotState) (uid : Nat) (dirName : String) (w h : Nat)
    (isImage decodeOk sizeOverLimit isAdmin : Bool) : StepOut :=
  if isImage = false then
    { state := s, replies := [Reply.notImageMsg], removeCalls := [], enqueued := [] }
  else
    let dirs1 := dirName :: s.dirs
    if decodeOk = false then
      { state := { s with dirs := dirs1.filter (fun d => d != dirName) }
        replies := [Reply.decodeFailMsg], removeCalls := [], enqueued := [] }
    else
      let r0 : CreationData :=
        { temp_dir_path := dirName
          image_path := dirName ++ "/source_image.jpg"
          imageW := w
          imageH := h
          is_large_file := sizeOverLimit && !isAdmin
          parts := none
          fit_mode := none }
      let s1 := setPending { s with dirs := dirs1 } uid (some r0)
      { state := setFsm s1 uid FsmState.waiting_parts_selection
        replies := [Reply.partsPrompt], removeCalls := [], enqueued := [] }

/-- Model of handle_parts_selection (lines 423-446): parts = int(data.split("_")[1])
first (a ValueError kills the handler with no state change), then missing
pending data is reported and the FSM cleared, otherwise parts is stored and
the FSM moves to waiting_fit_mode. -/
def handle_parts_selection (s : BotState) (uid : Nat) (payload : String) : StepOut :=
  match pyInt (pyIndex1 (pySplit payload ('_'))) with
  | none => noop s
  | some k =>
      match s.pending uid with
      | none =>
          { state := setFsm s uid FsmState.idle, replies := [Reply.noDataAlert]
            removeCalls := [], enqueued := [] }
      | some r =>
          let s1 := setPending s uid (some { r with parts := some k })
          { state := setFsm s1 uid FsmState.waiting_fit_mode, replies := [Reply.fitPrompt]
            removeCalls := [], enqueued := [] }

/-- Model of handle_fit_mode_selection (lines 449-476): fit_mode = data.split("_")[1];
missing pending data is reported and the FSM cleared; otherwise fit_mode is
stored (a missing "parts" key then raises KeyError after the store was
already mutated, before set_state) and the FSM moves on. -/
def handle_fit_mode_selection (s : BotState) (uid : Nat) (payload : String) : StepOut :=
  let fm := pyIndex1 (pySplit payload ('_'))
  match s.pending uid with
  | none =>
      { state := setFsm s uid FsmState.idle, replies := [Reply.noDataAlert]
        removeCalls := [], enqueued := [] }
  | some r =>
      let s1 := setPending s uid (some { r with fit_mode := some fm })
      match r.parts with
      | none => { state := s1, replies := [], removeCalls := [], enqueued := [] }
      | some _ =>
          { state := setFsm s1 uid FsmState.waiting_final_confirmation
            replies := [Reply.confirmPrompt], removeCalls := [], enqueued := [] }

/-- Model of add_to_queue (lines 478-508): missing pending data is reported and the
function returns early (the FSM is NOT cleared on that path); otherwise the
job is enqueued, remove(uid, cleanup_files=False) hands the temp directory
over to the worker, and the FSM is cleared. -/
def add_to_queue (s : BotState) (uid : Nat) (is_paid : Bool) : StepOut :=
  match s.pending uid with
  | none =>
      { state := s, replies := [Reply.noDataMsg], removeCalls := [], enqueued := [] }
  | some r =>
      let s1 := PendingCreation.remove s uid false
      let s2 := setFsm s1 uid FsmState.idle
      { state := s2, replies := [Reply.queuedMsg], removeCalls := [(uid, false)]
        enqueued := [{ user_id := uid, creation_data := r, is_paid := is_paid }] }

/-- Model of handle_create_now (lines 510-564): missing pending data is reported and
the FSM cleared; a missing "parts" key raises (KeyError) with no state
change; a positive total price moves to waiting_payment, otherwise the job
is promoted via add_to_queue. -/
def handle_create_now (s : BotState) (uid : Nat) (created_count : Nat) (is_admin : Bool) :
    StepOut :=
  match s.pending uid with
  | none =>
      { state := setFsm s uid FsmState.idle, replies := [Reply.noDataAlert]
        removeCalls := [], enqueued := [] }
  | some r =>
      match r.parts with
      | none => noop s
      | some p =>
          if 0 < total_price created_count p r.is_large_file is_admin then
            { state := setFsm s uid FsmState.waiting_payment, replies := [Reply.invoiceOffer]
              removeCalls := [], enqueued := [] }
          else
            add_to_queue s uid false

/-- Model of successful_payment (lines 598-609): promotes via add_to_queue with
is_paid=True. -/
def successful_payment (s : BotState) (uid : Nat) : StepOut :=
  add_to_queue s uid true

/-! ### Router dispatch: the aiogram filters guarding each handler -/

inductive Event
  | startCreation (uid : Nat)
  | cancelAndStart (uid : Nat)
  | cancelCreation (uid : Nat)
  | imageReceived (uid : Nat) (dirName : String) (w h : Nat)
      (isImage decodeOk sizeOverLimit isAdmin : Bool)
  | partsSelected (uid : Nat) (payload : String)
  | fitModeSelected (uid : Nat) (payload : String)
  | createNow (uid : Nat) (created_count : Nat) (is_admin : Bool)
  | paymentSucceeded (uid : Nat)

def dispatch (s : BotState) (e : Event) : StepOut :=
  match e with
  | Event.startCreation uid => start_creation s uid
  | Event.cancelAndStart uid => cancel_and_start s uid
  | Event.cancelCreation uid => cancel_creation s uid
  | Event.imageReceived uid dirName w h isImage decodeOk over admin =>
      if s.fsm uid = FsmState.waiting_image then
        handle_image s uid dirName w h isImage decodeOk over admin
      else noop s
  | Event.partsSelected uid payload =>
      if s.fsm uid = FsmState.waiting_parts_selection ∧ strStarts payload ("parts_") = true then
        handle_parts_selection s uid payload
      else noop s
  | Event.fitModeSelected uid payload =>
      if s.fsm uid = FsmState.waiting_fit_mode ∧ strStarts payload ("fit_") = true then
        handle_fit_mode_selection s uid payload
      else noop s
  | Event.createNow uid cc admin =>
      if s.fsm uid = FsmState.waiting_final_confirmation then
        handle_create_now s uid cc admin
      else noop s
  | Event.paymentSucceeded uid => successful_payment s uid

inductive Reachable : BotState → Prop
  | init : Reachable initState
  | next (s : BotState) (e : Event) : Reachable s → Reachable (dispatch s e).state

/-! ### The queue worker (processing_worker, lines 672-746) -/

/-- Which external calls of one worker iteration raise.  Every Telegram or
filesystem call in the job body may throw; a flag set to true means that
call raises when reached. -/
structure Outcomes where
  mkdir_raises : Bool := false
  progress0_edit_raises : Bool := false
  tiling_raises : Bool := false
  progress100_edit_raises : Bool := false
  packing_edit_raises : Bool := false
  archive_raises : Bool := false
  sending_edit_raises : Bool := false
  send_document_raises : Bool := false
  delete_message_raises : Bool := false
  final_send_raises : Bool := false
  failure_notice_raises : Bool := false
deriving DecidableEq

/-- An external call that either returns or raises. -/
def callOutcome (raises : Bool) : Except Unit Unit :=
  if raises then Except.error () else Except.ok ()

/-- Model of update_progress (lines 612-625): the edit_message_text call is wrapped
in try/except pass, so the function returns normally whether or not the
edit raised. -/
def update_progress (edit_raises : Bool) : Except Unit Unit :=
  match callOutcome edit_raises with
  | Except.ok _ => Except.ok ()
  | Except.error _ => Except.ok ()

/-- What the try block of the worker produced: whether it raised, whether
send_document succeeded, whether the stats increment (which directly
follows the send) ran, and how many rmtree calls the try block itself
issued on the temp dir (there are none in the source). -/
structure TryOutcome where
  raised : Bool
  delivered : Bool
  statsIncremented : Bool
  rmtreeCalls : Nat
deriving DecidableEq

def failedEarly : TryOutcome :=
  { raised := true, delivered := false, statsIncremented := false, rmtreeCalls := 0 }

def failedLate : TryOutcome :=
  { raised := true, delivered := true, statsIncremented := true, rmtreeCalls := 0 }

/-- The try block of processing_worker, in source order: output_dir.mkdir,
update_progress(0), the offloaded heavy_processing_task, update_progress
(100%), the raw "packing" edit of the progress message, the zip archive
write, the raw "sending" edit, send_document, increment_creations, delete
of the progress message, and the final menu message. -/
def tryBody (o : Outcomes) : TryOutcome :=
  match callOutcome o.mkdir_raises with
  | Except.error _ => failedEarly
  | Except.ok _ =>
  match update_progress o.progress0_edit_raises with
  | Except.error _ => failedEarly
  | Except.ok _ =>
  match callOutcome o.tiling_raises with
  | Except.error _ => failedEarly
  | Except.ok _ =>
  match update_progress o.progress100_edit_raises with
  | Except.error _ => failedEarly
  | Except.ok _ =>
  match callOutcome o.packing_edit_raises with
  | Except.error _ => failedEarly
  | Except.ok _ =>
  match callOutcome o.archive_raises with
  | Except.error _ => failedEarly
  | Except.ok _ =>
  match callOutcome o.sending_edit_raises with
  | Except.error _ => failedEarly
  | Except.ok _ =>
  match callOutcome o.send_document_raises with
  | Except.error _ => failedEarly
  | Except.ok _ =>
  match callOutcome o.delete_message_raises with
  | Except.error _ => failedLate
  | Except.ok _ =>
  match callOutcome o.final_send_raises with
  | Except.error _ => failedLate
  | Except.ok _ =>
      { raised := false, delivered := true, statsIncremented := true, rmtreeCalls := 0 }

structure JobResult where
  escaped : Bool
  failure_notified : Bool
  delivered : Bool
  stats_incremented : Bool
  cleanup_calls : Nat
  dirs_after : List String
deriving DecidableEq

/-- One iteration of processing_worker for a dequeued job: run the try
block; on a raise the except block sends the generic failure message (that
send itself is unguarded, so if it raises the exception escapes the loop);
the finally block runs shutil.rmtree(temp_dir_path, ignore_errors=True)
exactly once on every path. -/
def processJob (o : Outcomes) (dirs : List String) (temp_dir_path : String) : JobResult :=
  let t := tryBody o
  let exceptRmtree : Nat := 0
  { escaped := t.raised && o.failure_notice_raises
    failure_notified := t.raised && !o.failure_notice_raises
    delivered := t.delivered
    stats_incremented := t.statsIncremented
    cleanup_calls := t.rmtreeCalls + exceptRmtree + 1
    dirs_after := dirs.filter (fun d => d != temp_dir_path) }

/-- The unbounded worker loop: dequeue, process, task_done, repeat.  An
exception escaping an iteration terminates the worker task, so later jobs
are never dequeued.  Returns the final filesystem and the number of jobs
that were dequeued and processed. -/
def worker_loop : List (Outcomes × String) → List String → List String × Nat
  | [], dirs => (dirs, 0)
  | (o, td) :: rest, dirs =>
      let r := processJob o dirs td
      if r.escaped then (r.dirs_after, 1)
      else
        let p := worker_loop rest r.dirs_after
        (p.1, p.2 + 1)

/-- Which events promote a pending creation into a queued job. -/
def isPromotion : Event → Bool
  | Event.createNow _ _ _ => true
  | Event.paymentSucceeded _ => true
  | _ => false

/-! ### Basic lemmas about the state operations -/

theorem setFsm_pending (s : BotState) (uid : Nat) (v : FsmState) :
    (setFsm s uid v).pending = s.pending := rfl

theorem setFsm_dirs (s : BotState) (uid : Nat) (v : FsmState) :
    (setFsm s uid v).dirs = s.dirs := rfl

theorem setFsm_fsm (s : BotState) (uid : Nat) (v : FsmState) (u : Nat) :
    (setFsm s uid v).fsm u = if u = uid then v else s.fsm u := rfl

theorem setPending_fsm (s : BotState) (uid : Nat) (v : Option CreationData) :
    (setPending s uid v).fsm = s.fsm := rfl

theorem setPending_dirs (s : BotState) (uid : Nat) (v : Option CreationData) :
    (setPending s uid v).dirs = s.dirs := rfl

theorem setPending_pending (s : BotState) (uid : Nat) (v : Option CreationData) (u : Nat) :
    (setPending s uid v).pending u = if u = uid then v else s.pending u := rfl

theorem remove_fsm (s : BotState) (uid : Nat) (b : Bool) :
    (PendingCreation.remove s uid b).fsm = s.fsm := by
  unfold PendingCreation.remove
  cases h : s.pending uid <;> rfl

theorem remove_pending_self (s : BotState) (uid : Nat) (b : Bool) :
    (PendingCreation.remove s uid b).pending uid = none := by
  unfold PendingCreation.remove
  cases h : s.pending uid with
  | none => exact h
  | some r => simp

theorem remove_pending_ne (s : BotState) (uid : Nat) (b : Bool) (u : Nat) (hu : u ≠ uid) :
    (PendingCreation.remove s uid b).pending u = s.pending u := by
  unfold PendingCreation.remove
  cases h : s.pending uid with
  | none => rfl
  | some r => simp [hu]

theorem remove_dirs_of_false (s : BotState) (uid : Nat) :
    (PendingCreation.remove s uid false).dirs = s.dirs := by
  unfold PendingCreation.remove
  cases h : s.pending uid <;> rfl

theorem update_progress_eq (b : Bool) : update_progress b = Except.ok () := by
  cases b <;> rfl

theorem tryBody_rmtree_zero (o : Outcomes) : (tryBody o).rmtreeCalls = 0 := by
  unfold tryBody
  repeat' split
  all_goals rfl

/-! ### The single-pending invariant -/

/-- In every reachable state, a user whose FSM sits at waiting_image has no
pending creation record: the image handler (the only creator of records)
can therefore never overwrite an existing record. -/
def PendingInv (s : BotState) : Prop :=
  ∀ uid, s.fsm uid = FsmState.waiting_image → s.pending uid = none

theorem dispatch_preserves_inv (s : BotState) (e : Event) (hInv : PendingInv s) :
    PendingInv (dispatch s e).state := by
  cases e with
  | startCreation u =>
      intro uid hf
      by_cases hp : (s.pending u).isSome = true
      · simp only [dispatch, start_creation, PendingCreation.has_pending, hp, if_true] at hf ⊢
        exact hInv uid hf
      · simp only [dispatch, start_creation, PendingCreation.has_pending, hp, if_false,
          Bool.false_eq_true] at hf ⊢
        rw [setFsm_pending]
        rw [setFsm_fsm] at hf
        by_cases hu : uid = u
        · subst hu
          exact Option.not_isSome_iff_eq_none.mp (fun hs => hp hs)
        · simp only [hu, if_false] at hf
          exact hInv uid hf
  | cancelAndStart u =>
      intro uid hf
      have hfalse : ((setFsm (PendingCreation.remove s u true) u FsmState.idle).pending u).isSome
          = false := by
        rw [setFsm_pending, remove_pending_self]
        rfl
      simp only [dispatch, cancel_and_start, start_creation, PendingCreation.has_pending,
        hfalse, Bool.false_eq_true, if_false] at hf ⊢
      rw [setFsm_pending, setFsm_pending]
      by_cases hu : uid = u
      · subst hu
        exact remove_pending_self s uid true
      · rw [remove_pending_ne _ _ _ _ hu]
        rw [setFsm_fsm, setFsm_fsm] at hf
        simp only [hu, if_false] at hf
        rw [remove_fsm] at hf
        exact hInv uid hf
  | cancelCreation u =>
      intro uid hf
      simp only [dispatch, cancel_creation] at hf ⊢
      rw [remove_fsm, setFsm_fsm] at hf
      by_cases hu : uid = u
      · simp only [hu, if_true] at hf
        cases hf
      · simp only [hu, if_false] at hf
        rw [remove_pending_ne _ _ _ _ hu]
        exact hInv uid hf
  | imageReceived u dirName w h isImage decodeOk over admin =>
      intro uid hf
      by_cases hg : s.fsm u = FsmState.waiting_image
      · simp only [dispatch, hg, if_true, handle_image] at hf ⊢
        cases isImage with
        | false => exact hInv uid hf
        | true =>
            simp only [Bool.true_eq_false, if_false] at hf ⊢
            cases decodeOk with
            | false => exact hInv uid hf
            | true =>
                simp only [Bool.true_eq_false, if_false] at hf ⊢
                rw [setFsm_fsm] at hf
                rw [setFsm_pending, setPending_pending]
                by_cases hu : uid = u
                · simp only [hu, if_true] at hf
                  cases hf
                · simp only [hu, if_false] at hf ⊢
                  exact hInv uid hf
      · simp only [dispatch, hg, if_false, noop] at hf ⊢
        exact hInv uid hf
  | partsSelected u payload =>
      intro uid hf
      by_cases hg : s.fsm u = FsmState.waiting_parts_selection ∧ strStarts payload ("parts_") = true
      · simp only [dispatch, hg, and_self, if_true, handle_parts_selection] at hf ⊢
        rcases hk : pyInt (pyIndex1 (pySplit payload ('_'))) with _ | k
        · simp only [hk, noop] at hf ⊢
          exact hInv uid hf
        · simp only [hk] at hf ⊢
          rcases hp : s.pending u with _ | r
          · simp only [hp] at hf ⊢
            rw [setFsm_fsm] at hf
            by_cases hu : uid = u
            · simp only [hu, if_true] at hf
              cases hf
            · simp only [hu, if_false] at hf
              rw [setFsm_pending]
              exact hInv uid hf
          · simp only [hp] at hf ⊢
            rw [setFsm_fsm] at hf
            rw [setFsm_pending, setPending_pending]
            by_cases hu : uid = u
            · simp only [hu, if_true] at hf
              cases hf
            · simp only [hu, if_false] at hf ⊢
              exact hInv uid hf
      · simp only [dispatch, hg, if_false, noop] at hf ⊢
        exact hInv uid hf
  | fitModeSelected u payload =>
      intro uid hf
      by_cases hg : s.fsm u = FsmState.waiting_fit_mode ∧ strStarts payload ("fit_") = true
      · simp only [dispatch, hg, and_self, if_true, handle_fit_mode_selection] at hf ⊢
        rcases hp : s.pending u with _ | r
        · simp only [hp] at hf ⊢
          rw [setFsm_fsm] at hf
          by_cases hu : uid = u
          · simp only [hu, if_true] at hf
            cases hf
          · simp only [hu, if_false] at hf
            rw [setFsm_pending]
            exact hInv uid hf
        · simp only [hp] at hf ⊢
          rcases hq : r.parts with _ | p
          · simp only [hq] at hf ⊢
            rw [setPending_fsm] at hf
            rw [setPending_pending]
            by_cases hu : uid = u
            · subst hu
              rw [hf] at hg
              cases hg.1
            · simp only [hu, if_false]
              exact hInv uid hf
          · simp only [hq] at hf ⊢
            rw [setFsm_fsm, setPending_fsm] at hf
            rw [setFsm_pending, setPending_pending]
            by_cases hu : uid = u
            · simp only [hu, if_true] at hf
              cases hf
            · simp only [hu, if_false] at hf ⊢
              exact hInv uid hf
      · simp only [dispatch, hg, if_false, noop] at hf ⊢
        exact hInv uid hf
  | createNow u cc admin =>
      intro uid hf
      by_cases hg : s.fsm u = FsmState.waiting_final_confirmation
      · simp only [dispatch, hg, if_true, handle_create_now] at hf ⊢
        rcases hp : s.pending u with _ | r
        · simp only [hp] at hf ⊢
          rw [setFsm_fsm] at hf
          by_cases hu : uid = u
          · simp only [hu, if_true] at hf
            cases hf
          · simp only [hu, if_false] at hf
            rw [setFsm_pending]
            exact hInv uid hf
        · simp only [hp] at hf ⊢
          rcases hq : r.parts with _ | p
          · simp only [hq, noop] at hf ⊢
            exact hInv uid hf
          · simp only [hq] at hf ⊢
            by_cases hpr : 0 < total_price cc p r.is_large_file admin
            · simp only [hpr, if_true] at hf ⊢
              rw [setFsm_fsm] at hf
              by_cases hu : uid = u
              · simp only [hu, if_true] at hf
                cases hf
              · simp only [hu, if_false] at hf
                rw [setFsm_pending]
                exact hInv uid hf
            · simp only [hpr, if_false, add_to_queue, hp] at hf ⊢
              rw [setFsm_fsm, remove_fsm] at hf
              rw [setFsm_pending]
              by_cases hu : uid = u
              · subst hu
                exact remove_pending_self s uid false
              · simp only [hu, if_false] at hf
                rw [remove_pending_ne _ _ _ _ hu]
                exact hInv uid hf
      · simp only [dispatch, hg, if_false, noop] at hf ⊢
        exact hInv uid hf
  | paymentSucceeded u =>
      intro uid hf
      simp only [dispatch, successful_payment, add_to_queue] at hf ⊢
      rcases hp : s.pending u with _ | r
      · simp only [hp] at hf ⊢
        exact hInv uid hf
      · simp only [hp] at hf ⊢
        rw [setFsm_fsm, remove_fsm] at hf
        rw [setFsm_pending]
        by_cases hu : uid = u
        · subst hu
          exact remove_pending_self s uid false
        · simp only [hu, if_false] at hf
          rw [remove_pending_ne _ _ _ _ hu]
          exact hInv uid hf

theorem reachable_inv (s : BotState) (h : Reachable s) : PendingInv s := by
  induction h with
  | init => intro uid _h; rfl
  | next s e _hs ih => exact dispatch_preserves_inv s e ih

/-! ### Spec constants named as in the specification -/

def BASE_PRICE : Nat := PRICE_AFTER_2_FREE

def EXTENDED_PRICE : Nat := PRICE_21_PARTS

def LARGE_FILE_PRICE : Nat := PRICE_LARGE_FILE

/-! ### Concrete scenario used by several witnesses -/

def s_afterStart : BotState := (dispatch initState (Event.startCreation 0)).state

def s_withPending : BotState :=
  (dispatch s_afterStart (Event.imageReceived 0 ("d0") 1000 800 true true false false)).state

def r0 : CreationData :=
  { temp_dir_path := "d0"
    image_path := "d0/source_image.jpg"
    imageW := 1000
    imageH := 800
    is_large_file := false
    parts := none
    fit_mode := none }

theorem s_withPending_reachable : Reachable s_withPending :=
  Reachable.next s_afterStart (Event.imageReceived 0 ("d0") 1000 800 true true false false)
    (Reachable.next initState (Event.startCreation 0) Reachable.init)

/-! ### Claims -/

/-- Claim C2: the claim says fitMode=cover scales by max(CanvasW/srcW, CanvasH/srcH)
so the scaled image fully covers the canvas, and fitMode=contain never crops.
Evaluating the embedded heavy_processing_task on a 1000x1000 source with
partCount 9 (canvas 3240x4026) shows the code's branches are swapped:
"cover" scales to 3240x3240, strictly shorter than the canvas, leaving 393
rows of background visible at the top of the first crop row; "contain"
scales to 4026x4026, strictly wider than the canvas, cropping the source. -/
theorem spec_c2_fit_modes_swapped_eval :
    ((heavy_processing_task ("cover") 1000 1000 9).scaledW = 3240 ∧
      (heavy_processing_task ("cover") 1000 1000 9).scaledH = 3240 ∧
      (heavy_processing_task ("cover") 1000 1000 9).canvasH = 4026 ∧
      (heavy_processing_task ("cover") 1000 1000 9).scaledH <
        (heavy_processing_task ("cover") 1000 1000 9).canvasH ∧
      (heavy_processing_task ("cover") 1000 1000 9).offsetY = 393) ∧
    ((heavy_processing_task ("contain") 1000 1000 9).scaledW = 4026 ∧
      (heavy_processing_task ("contain") 1000 1000 9).canvasW = 3240 ∧
      (heavy_processing_task ("contain") 1000 1000 9).canvasW <
        (heavy_processing_task ("contain") 1000 1000 9).scaledW) := by
  decide

/-- Claim C3: for every partCount in the offered set and any fit mode and source
size, the tiling engine emits exactly partCount outputs, the i-th output is
the row-major cell i (crop origin (i mod 3 * 1080, i div 3 * 1342)) framed
at exactly 1080x1920, its filename is story_(i+1) zero-padded to two
digits, and the filename sequence is strictly increasing. -/
theorem spec_c3_tiling_output_shape (fit_mode : String) (srcW srcH parts : Nat)
    (hp : parts ∈ validParts) :
    ((heavy_processing_task fit_mode srcW srcH parts).outputs).length = parts ∧
    (∀ i, i < parts →
      ((heavy_processing_task fit_mode srcW srcH parts).outputs).getD i (tilePiece 0) =
        tilePiece i) ∧
    (∀ i, i < parts →
      (tilePiece i).width = 1080 ∧ (tilePiece i).height = 1920 ∧
      (tilePiece i).filename = "story_" ++ pad2 (i + 1) ++ ".png" ∧
      (tilePiece i).cropX = (i % 3) * 1080 ∧ (tilePiece i).cropY = (i / 3) * 1342) ∧
    List.Pairwise (fun a b => strLt a.filename b.filename = true)
      ((heavy_processing_task fit_mode srcW srcH parts).outputs) := by
  simp only [heavy_outputs_eq]
  simp only [validParts, List.mem_cons, List.not_mem_nil, or_false] at hp
  rcases hp with rfl | rfl | rfl | rfl | rfl | rfl | rfl <;> decide

/-- Witness for C3 at fit mode cover, source 1000x800, partCount 9. -/
theorem spec_c3_tiling_output_shape_witness :
    9 ∈ validParts ∧
    (((heavy_processing_task ("cover") 1000 800 9).outputs).length = 9 ∧
      (∀ i, i < 9 →
        ((heavy_processing_task ("cover") 1000 800 9).outputs).getD i (tilePiece 0) =
          tilePiece i) ∧
      (∀ i, i < 9 →
        (tilePiece i).width = 1080 ∧ (tilePiece i).height = 1920 ∧
        (tilePiece i).filename = "story_" ++ pad2 (i + 1) ++ ".png" ∧
        (tilePiece i).cropX = (i % 3) * 1080 ∧ (tilePiece i).cropY = (i / 3) * 1342) ∧
      List.Pairwise (fun a b => strLt a.filename b.filename = true)
        ((heavy_processing_task ("cover") 1000 800 9).outputs)) :=
  ⟨by decide, spec_c3_tiling_output_shape ("cover") 1000 800 9 (by decide)⟩

/-- Claim C4: the price computed at confirmation is the sum of BASE_PRICE (when
priorCreationCount is at least 2 and the user is not privileged),
EXTENDED_PRICE (when partCount is 21 and not privileged) and
LARGE_FILE_PRICE (when the large-file flag is set and not privileged); a
privileged user always pays 0, and a non-privileged user with no prior
creations, a non-maximal part count and a small file pays 0. -/
theorem spec_c4_pricing_rule (created_count : Nat) (parts : Int) (large priv : Bool) :
    total_price created_count parts large priv =
      (if 2 ≤ created_count ∧ priv = false then BASE_PRICE else 0) +
        (if parts = 21 ∧ priv = false then EXTENDED_PRICE else 0) +
        (if large = true ∧ priv = false then LARGE_FILE_PRICE else 0) ∧
    (priv = true → total_price created_count parts large priv = 0) ∧
    (priv = false → large = false → parts ≠ 21 →
      total_price 0 parts large priv = 0) := by
  refine ⟨rfl, ?_, ?_⟩
  · intro hpriv
    subst hpriv
    simp [total_price]
  · intro hpriv hlarge hparts
    subst hpriv
    subst hlarge
    simp [total_price, hparts]

/-- Witness for C4: a privileged user with 5 prior creations, 21 parts and a
large file pays 0; a fresh non-privileged user with 9 parts and a small
file pays 0; a non-privileged user with 2 prior creations pays BASE_PRICE. -/
theorem spec_c4_pricing_rule_witness :
    total_price 5 21 true true = 0 ∧ total_price 0 9 false false = 0 ∧
    total_price 2 9 false false = BASE_PRICE := by
  refine ⟨(spec_c4_pricing_rule 5 21 true true).2.1 rfl, ?_, ?_⟩
  · exact (spec_c4_pricing_rule 0 9 false false).2.2 rfl rfl (by decide)
  · have h := (spec_c4_pricing_rule 2 9 false false).1
    rw [h]
    decide

/-- Claim C10: for a user with no record in the store, remove with either cleanup
flag is a total no-op returning the state unchanged (so it deletes no
directory and raises nothing), and get returns none. -/
theorem spec_c10_remove_absent_noop (s : BotState) (uid : Nat) (b : Bool)
    (h : s.pending uid = none) :
    PendingCreation.remove s uid b = s ∧ PendingCreation.get s uid = none := by
  constructor
  · unfold PendingCreation.remove
    rw [h]
  · exact h

/-- Witness for C10 on a state holding a record for user 0 only, queried at
user 7 with both flag values. -/
theorem spec_c10_remove_absent_noop_witness :
    s_withPending.pending 7 = none ∧
    PendingCreation.remove s_withPending 7 true = s_withPending ∧
    PendingCreation.remove s_withPending 7 false = s_withPending ∧
    PendingCreation.get s_withPending 7 = none := by
  refine ⟨rfl, (spec_c10_remove_absent_noop s_withPending 7 true rfl).1,
    (spec_c10_remove_absent_noop s_withPending 7 false rfl).1,
    (spec_c10_remove_absent_noop s_withPending 7 true rfl).2⟩

def noFailures : Outcomes := {}

/-- Claim C1: removing a pending creation with cleanupTempDir=true deletes its
temp directory and the record; remove with cleanupTempDir=false leaves the
filesystem untouched; every dequeued job runs rmtree on its temp directory
exactly once, on every terminal path, whatever subset of the processing
steps raises; and the only dispatched transitions that ever issue a remove
call with cleanup_files=false are the two promotion events, each issuing
exactly one such call. -/
theorem spec_c1_temp_dir_lifecycle :
    (∀ (s : BotState) (uid : Nat) (r : CreationData), s.pending uid = some r →
      (PendingCreation.remove s uid true).pending uid = none ∧
        r.temp_dir_path ∉ (PendingCreation.remove s uid true).dirs) ∧
    (∀ (s : BotState) (uid : Nat), (PendingCreation.remove s uid false).dirs = s.dirs) ∧
    (∀ (o : Outcomes) (dirs : List String) (td : String),
      (processJob o dirs td).cleanup_calls = 1 ∧ td ∉ (processJob o dirs td).dirs_after) ∧
    (∀ (s : BotState) (e : Event) (p : Nat × Bool),
      p ∈ (dispatch s e).removeCalls → p.2 = false → isPromotion e = true) ∧
    (∀ (s : BotState) (uid : Nat) (r : CreationData) (paid : Bool), s.pending uid = some r →
      (add_to_queue s uid paid).removeCalls = [(uid, false)]) := by
  refine ⟨?_, ?_, ?_, ?_, ?_⟩
  · intro s uid r h
    refine ⟨remove_pending_self s uid true, ?_⟩
    unfold PendingCreation.remove
    rw [h]
    simp [List.mem_filter]
  · intro s uid
    exact remove_dirs_of_false s uid
  · intro o dirs td
    constructor
    · simp [processJob, tryBody_rmtree_zero]
    · simp [processJob, List.mem_filter]
  · intro s e p hp hfalse
    cases e with
    | startCreation u =>
        simp only [dispatch, start_creation] at hp
        split at hp <;> simp at hp
    | cancelAndStart u =>
        simp only [dispatch, cancel_and_start, start_creation] at hp
        split at hp <;>
          (simp only [List.mem_cons, List.not_mem_nil, or_false] at hp; subst hp;
            simp at hfalse)
    | cancelCreation u =>
        simp only [dispatch, cancel_creation, List.mem_singleton] at hp
        subst hp
        simp at hfalse
    | imageReceived u d w h isImage decodeOk over admin =>
        by_cases hg : s.fsm u = FsmState.waiting_image
        · cases isImage <;> cases decodeOk <;>
            simp [dispatch, hg, handle_image, noop] at hp
        · simp [dispatch, hg, noop] at hp
    | partsSelected u payload =>
        by_cases hg : s.fsm u = FsmState.waiting_parts_selection ∧
            strStarts payload ("parts_") = true
        · simp only [dispatch, hg, and_self, if_true, handle_parts_selection] at hp
          rcases hk : pyInt (pyIndex1 (pySplit payload ('_'))) with _ | k
          · simp [hk, noop] at hp
          · simp only [hk] at hp
            rcases hq : s.pending u with _ | r <;> simp [hq] at hp
        · simp [dispatch, hg, noop] at hp
    | fitModeSelected u payload =>
        by_cases hg : s.fsm u = FsmState.waiting_fit_mode ∧ strStarts payload ("fit_") = true
        · simp only [dispatch, hg, and_self, if_true, handle_fit_mode_selection] at hp
          rcases hq : s.pending u with _ | r
          · simp [hq] at hp
          · simp only [hq] at hp
            rcases hr : r.parts with _ | k <;> simp [hr] at hp
        · simp [dispatch, hg, noop] at hp
    | createNow u cc admin => rfl
    | paymentSucceeded u => rfl
  · intro s uid r paid h
    simp [add_to_queue, h]

/-- Witness for C1 on the reachable pending state for user 0 (temp
directory d0), the all-success worker outcome, and the payment promotion
event. -/
theorem spec_c1_temp_dir_lifecycle_witness :
    s_withPending.pending 0 = some r0 ∧
    (PendingCreation.remove s_withPending 0 true).pending 0 = none ∧
    r0.temp_dir_path ∉ (PendingCreation.remove s_withPending 0 true).dirs ∧
    (PendingCreation.remove s_withPending 0 false).dirs = s_withPending.dirs ∧
    (processJob noFailures ["d0"] ("d0")).cleanup_calls = 1 ∧
    ("d0") ∉ (processJob noFailures ["d0"] ("d0")).dirs_after ∧
    isPromotion (Event.paymentSucceeded 0) = true ∧
    (add_to_queue s_withPending 0 true).removeCalls = [(0, false)] := by
  refine ⟨rfl, (spec_c1_temp_dir_lifecycle.1 s_withPending 0 r0 rfl).1,
    (spec_c1_temp_dir_lifecycle.1 s_withPending 0 r0 rfl).2,
    spec_c1_temp_dir_lifecycle.2.1 s_withPending 0,
    (spec_c1_temp_dir_lifecycle.2.2.1 noFailures ["d0"] ("d0")).1,
    (spec_c1_temp_dir_lifecycle.2.2.1 noFailures ["d0"] ("d0")).2,
    spec_c1_temp_dir_lifecycle.2.2.2.1 s_withPending (Event.paymentSucceeded 0) (0, false)
      (by decide) rfl,
    spec_c1_temp_dir_lifecycle.2.2.2.2 s_withPending 0 r0 true rfl⟩

/-- Claim C5: a second start-creation request while a pending creation exists is
answered with the explicit discard-confirmation prompt and changes nothing;
in every reachable state a user at waiting_image has no pending record, so
accepting an image never overwrites an existing record (in fact an image
event for a user who still has a record is a no-op, because such a user
cannot sit at waiting_image); and the explicit cancel-and-restart path
removes the existing record and its temp directory before the new upload
prompt. -/
theorem spec_c5_single_pending :
    (∀ (s : BotState) (uid : Nat), PendingCreation.has_pending s uid = true →
      dispatch s (Event.startCreation uid) =
        { state := s, replies := [Reply.discardPrompt], removeCalls := [], enqueued := [] }) ∧
    (∀ (s : BotState), Reachable s →
      ∀ uid, s.fsm uid = FsmState.waiting_image → s.pending uid = none) ∧
    (∀ (s : BotState) (uid : Nat) (dirName : String) (w h : Nat) (over admin : Bool),
      Reachable s → (s.pending uid).isSome = true →
      dispatch s (Event.imageReceived uid dirName w h true true over admin) = noop s) ∧
    (∀ (s : BotState) (uid : Nat) (r : CreationData), s.pending uid = some r →
      (dispatch s (Event.cancelAndStart uid)).state.pending uid = none ∧
        r.temp_dir_path ∉ (dispatch s (Event.cancelAndStart uid)).state.dirs ∧
        (dispatch s (Event.cancelAndStart uid)).state.fsm uid = FsmState.waiting_image) := by
  refine ⟨?_, ?_, ?_, ?_⟩
  · intro s uid h
    simp [dispatch, start_creation, h]
  · intro s hs
    exact reachable_inv s hs
  · intro s uid dirName w h over admin hs hp
    by_cases hg : s.fsm uid = FsmState.waiting_image
    · rw [reachable_inv s hs uid hg] at hp
      cases hp
    · simp [dispatch, hg]
  · intro s uid r h
    have hfalse : ((setFsm (PendingCreation.remove s uid true) uid
        FsmState.idle).pending uid).isSome = false := by
      rw [setFsm_pending, remove_pending_self]
      rfl
    simp only [dispatch, cancel_and_start, start_creation, PendingCreation.has_pending,
      hfalse, Bool.false_eq_true, if_false]
    refine ⟨?_, ?_, ?_⟩
    · rw [setFsm_pending, setFsm_pending, remove_pending_self]
    · rw [setFsm_dirs, setFsm_dirs]
      unfold PendingCreation.remove
      rw [h]
      simp [List.mem_filter]
    · rw [setFsm_fsm]
      simp

/-- Witness for C5 on the reachable two-step scenario: user 0 uploaded an
image into temp directory d0. -/
theorem spec_c5_single_pending_witness :
    PendingCreation.has_pending s_withPending 0 = true ∧
    dispatch s_withPending (Event.startCreation 0) =
      { state := s_withPending, replies := [Reply.discardPrompt]
        removeCalls := [], enqueued := [] } ∧
    s_afterStart.fsm 0 = FsmState.waiting_image ∧
    s_afterStart.pending 0 = none ∧
    dispatch s_withPending (Event.imageReceived 0 ("d1") 5 5 true true false false) =
      noop s_withPending ∧
    (dispatch s_withPending (Event.cancelAndStart 0)).state.pending 0 = none ∧
    r0.temp_dir_path ∉ (dispatch s_withPending (Event.cancelAndStart 0)).state.dirs ∧
    (dispatch s_withPending (Event.cancelAndStart 0)).state.fsm 0 =
      FsmState.waiting_image := by
  refine ⟨rfl, spec_c5_single_pending.1 s_withPending 0 rfl, rfl,
    spec_c5_single_pending.2.1 s_afterStart
      (Reachable.next initState (Event.startCreation 0) Reachable.init) 0 rfl,
    spec_c5_single_pending.2.2.1 s_withPending 0 ("d1") 5 5 false false
      s_withPending_reachable rfl,
    (spec_c5_single_pending.2.2.2 s_withPending 0 r0 rfl).1,
    (spec_c5_single_pending.2.2.2 s_withPending 0 r0 rfl).2.1,
    (spec_c5_single_pending.2.2.2 s_withPending 0 r0 rfl).2.2⟩

/-- Claim C8: a part-count selection (with a parseable payload, as every keyboard
payload is) or a fit-mode selection arriving for a user with no pending
record reports the no-data alert, leaves the pending store untouched (the
resulting state is exactly setFsm s uid idle, whose pending map is s's) and
forces the FSM back to idle. -/
theorem spec_c8_missing_pending_selection (s : BotState) (uid : Nat) (payload : String) :
    (s.pending uid = none → s.fsm uid = FsmState.waiting_parts_selection →
      strStarts payload ("parts_") = true →
      (∃ k, pyInt (pyIndex1 (pySplit payload ('_'))) = some k) →
      dispatch s (Event.partsSelected uid payload) =
        { state := setFsm s uid FsmState.idle, replies := [Reply.noDataAlert]
          removeCalls := [], enqueued := [] }) ∧
    (s.pending uid = none → s.fsm uid = FsmState.waiting_fit_mode →
      strStarts payload ("fit_") = true →
      dispatch s (Event.fitModeSelected uid payload) =
        { state := setFsm s uid FsmState.idle, replies := [Reply.noDataAlert]
          removeCalls := [], enqueued := [] }) := by
  constructor
  · intro h hf hsw hk
    obtain ⟨k, hk⟩ := hk
    simp [dispatch, hf, hsw, handle_parts_selection, hk, h]
  · intro h hf hsw
    simp [dispatch, hf, hsw, handle_fit_mode_selection, h]

def c8sParts : BotState :=
  { pending := fun _ => none
    fsm := fun u => if u = 0 then FsmState.waiting_parts_selection else FsmState.idle
    dirs := [] }

def c8sFit : BotState :=
  { pending := fun _ => none
    fsm := fun u => if u = 0 then FsmState.waiting_fit_mode else FsmState.idle
    dirs := [] }

/-- Witness for C8 with the keyboard payloads parts_9 and fit_cover. -/
theorem spec_c8_missing_pending_selection_witness :
    c8sParts.pending 0 = none ∧
    dispatch c8sParts (Event.partsSelected 0 ("parts_9")) =
      { state := setFsm c8sParts 0 FsmState.idle, replies := [Reply.noDataAlert]
        removeCalls := [], enqueued := [] } ∧
    c8sFit.pending 0 = none ∧
    dispatch c8sFit (Event.fitModeSelected 0 ("fit_cover")) =
      { state := setFsm c8sFit 0 FsmState.idle, replies := [Reply.noDataAlert]
        removeCalls := [], enqueued := [] } :=
  ⟨rfl, (spec_c8_missing_pending_selection c8sParts 0 ("parts_9")).1 rfl rfl rfl ⟨9, rfl⟩,
    rfl, (spec_c8_missing_pending_selection c8sFit 0 ("fit_cover")).2 rfl rfl rfl⟩

def badJob : Outcomes := { tiling_raises := true, failure_notice_raises := true }

/-- Claim C6 counterexample: the failure-notification send in the worker's except
block is itself unguarded.  When the tiling step raises and that
notification send also raises (e.g. the user blocked the bot), the
exception escapes the iteration, the worker task dies, and the second
queued job is never dequeued: only 1 of 2 jobs is processed, refuting
"never propagates out of the worker loop". -/
theorem spec_c6_worker_escape_counterexample :
    (processJob badJob ["a", "b"] ("a")).escaped = true ∧
    (worker_loop [(badJob, "a"), (noFailures, "b")] ["a", "b"]).2 = 1 ∧
    ([(badJob, "a"), (noFailures, "b")] : List (Outcomes × String)).length = 2 :=
  ⟨rfl, rfl, rfl⟩

/-- Claim C6 amended: any failure in the processing steps of a job is caught at
the worker boundary and answered with the generic failure message, and the
worker processes every queued job — provided the failure-notification send
itself does not raise; if that send raises, the exception propagates out of
the worker loop (the finally-cleanup of the current job still runs). -/
theorem spec_c6_worker_survival_amended (jobs : List (Outcomes × String))
    (dirs : List String) (hn : ∀ j ∈ jobs, j.1.failure_notice_raises = false) :
    (worker_loop jobs dirs).2 = jobs.length ∧
    ∀ j ∈ jobs, (processJob j.1 dirs j.2).escaped = false ∧
      ((tryBody j.1).raised = true → (processJob j.1 dirs j.2).failure_notified = true) := by
  constructor
  · revert dirs hn
    induction jobs with
    | nil => intro dirs _; rfl
    | cons jt rest ih =>
        intro dirs hn
        obtain ⟨o, td⟩ := jt
        have ho : o.failure_notice_raises = false := hn (o, td) (List.mem_cons_self _ _)
        have hesc : (processJob o dirs td).escaped = false := by
          simp [processJob, ho]
        simp only [worker_loop, hesc, Bool.false_eq_true, if_false, List.length_cons]
        rw [ih (processJob o dirs td).dirs_after
          (fun j hj => hn j (List.mem_cons_of_mem _ hj))]
  · intro j hj
    have ho : j.1.failure_notice_raises = false := hn j hj
    constructor
    · simp [processJob, ho]
    · intro hr
      simp [processJob, ho, hr]

def jobsW : List (Outcomes × String) := [({ tiling_raises := true }, "a"), (noFailures, "b")]

/-- Witness for the amended C6: a failing-tiling job followed by a clean
job, with the failure notification deliverable. -/
theorem spec_c6_worker_survival_amended_witness :
    (∀ j ∈ jobsW, j.1.failure_notice_raises = false) ∧
    ((worker_loop jobsW ["a", "b"]).2 = jobsW.length ∧
      ∀ j ∈ jobsW, (processJob j.1 ["a", "b"] j.2).escaped = false ∧
        ((tryBody j.1).raised = true →
          (processJob j.1 ["a", "b"] j.2).failure_notified = true)) :=
  ⟨by decide, spec_c6_worker_survival_amended jobsW ["a", "b"] (by decide)⟩

def validPartsInt : List Int := [3, 6, 9, 12, 15, 18, 21]

/-- Claim C7 counterexample: the part-count handler stores int(payload after the
underscore) without validating it.  Dispatching the spoofable callback
payload parts_5 on the reachable state where user 0 awaits a part count
stores partCount 5 — not a member of {3,6,9,12,15,18,21} and not a multiple
of 3 — and advances the wizard. -/
theorem spec_c7_part_count_counterexample :
    (dispatch s_withPending (Event.partsSelected 0 ("parts_5"))).state.pending 0 =
      some { r0 with parts := some 5 } ∧
    (dispatch s_withPending (Event.partsSelected 0 ("parts_5"))).state.fsm 0 =
      FsmState.waiting_fit_mode ∧
    ¬ (5 : Int) ∈ validPartsInt ∧ ¬ (5 : Int) % 3 = 0 :=
  ⟨rfl, rfl, by decide, by decide⟩

def partsKeyboardPayloads : List String :=
  ["parts_3", "parts_6", "parts_9", "parts_12", "parts_15", "parts_18", "parts_21"]

/-- Claim C7 amended: the handler accepts whatever integer follows the underscore
in the payload; for every payload actually offered by the part-count
keyboard the stored partCount lies in {3,6,9,12,15,18,21}, a multiple of 3
between 3 and 21. -/
theorem spec_c7_part_count_amended (s : BotState) (uid : Nat) (payload : String)
    (r : CreationData) (hp : payload ∈ partsKeyboardPayloads)
    (hf : s.fsm uid = FsmState.waiting_parts_selection) (hr : s.pending uid = some r) :
    ∃ k : Int, (dispatch s (Event.partsSelected uid payload)).state.pending uid =
        some { r with parts := some k } ∧
      k ∈ validPartsInt ∧ k % 3 = 0 ∧ 3 ≤ k ∧ k ≤ 21 := by
  simp only [partsKeyboardPayloads, List.mem_cons, List.not_mem_nil, or_false] at hp
  rcases hp with rfl | rfl | rfl | rfl | rfl | rfl | rfl
  · refine ⟨3, ?_, by decide, by decide, by decide, by decide⟩
    have hsw : strStarts ("parts_3") ("parts_") = true := rfl
    have hpy : pyInt (pyIndex1 (pySplit ("parts_3") ('_'))) = some 3 := rfl
    simp [dispatch, hf, hsw, handle_parts_selection, hpy, hr, setFsm_pending, setPending_pending]
  · refine ⟨6, ?_, by decide, by decide, by decide, by decide⟩
    have hsw : strStarts ("parts_6") ("parts_") = true := rfl
    have hpy : pyInt (pyIndex1 (pySplit ("parts_6") ('_'))) = some 6 := rfl
    simp [dispatch, hf, hsw, handle_parts_selection, hpy, hr, setFsm_pending, setPending_pending]
  · refine ⟨9, ?_, by decide, by decide, by decide, by decide⟩
    have hsw : strStarts ("parts_9") ("parts_") = true := rfl
    have hpy : pyInt (pyIndex1 (pySplit ("parts_9") ('_'))) = some 9 := rfl
    simp [dispatch, hf, hsw, handle_parts_selection, hpy, hr, setFsm_pending, setPending_pending]
  · refine ⟨12, ?_, by decide, by decide, by decide, by decide⟩
    have hsw : strStarts ("parts_12") ("parts_") = true := rfl
    have hpy : pyInt (pyIndex1 (pySplit ("parts_12") ('_'))) = some 12 := rfl
    simp [dispatch, hf, hsw, handle_parts_selection, hpy, hr, setFsm_pending, setPending_pending]
  · refine ⟨15, ?_, by decide, by decide, by decide, by decide⟩
    have hsw : strStarts ("parts_15") ("parts_") = true := rfl
    have hpy : pyInt (pyIndex1 (pySplit ("parts_15") ('_'))) = some 15 := rfl
    simp [dispatch, hf, hsw, handle_parts_selection, hpy, hr, setFsm_pending, setPending_pending]
  · refine ⟨18, ?_, by decide, by decide, by decide, by decide⟩
    have hsw : strStarts ("parts_18") ("parts_") = true := rfl
    have hpy : pyInt (pyIndex1 (pySplit ("parts_18") ('_'))) = some 18 := rfl
    simp [dispatch, hf, hsw, handle_parts_selection, hpy, hr, setFsm_pending, setPending_pending]
  · refine ⟨21, ?_, by decide, by decide, by decide, by decide⟩
    have hsw : strStarts ("parts_21") ("parts_") = true := rfl
    have hpy : pyInt (pyIndex1 (pySplit ("parts_21") ('_'))) = some 21 := rfl
    simp [dispatch, hf, hsw, handle_parts_selection, hpy, hr, setFsm_pending, setPending_pending]

/-- Witness for the amended C7 at the keyboard payload parts_9 on the
reachable pending state. -/
theorem spec_c7_part_count_amended_witness :
    (("parts_9") ∈ partsKeyboardPayloads) ∧
    ∃ k : Int, (dispatch s_withPending (Event.partsSelected 0 ("parts_9"))).state.pending 0 =
        some { r0 with parts := some k } ∧
      k ∈ validPartsInt ∧ k % 3 = 0 ∧ 3 ≤ k ∧ k ≤ 21 :=
  ⟨by decide, spec_c7_part_count_amended s_withPending 0 ("parts_9") r0 (by decide) rfl rfl⟩

def packEditFails : Outcomes := { packing_edit_raises := true }

/-- Claim C9 counterexample: with every step succeeding except the packing-stage
edit of the progress message (exactly the "message already deleted" case),
the job takes the failure path: the user gets the generic failure message,
nothing is delivered and no stats are incremented — a progress-surface
update failure made the job itself fail, refuting "never causes the job
itself to fail". -/
theorem spec_c9_progress_failure_counterexample :
    (processJob packEditFails ["a"] ("a")).failure_notified = true ∧
    (processJob packEditFails ["a"] ("a")).delivered = false ∧
    (processJob packEditFails ["a"] ("a")).stats_incremented = false ∧
    (processJob packEditFails ["a"] ("a")).escaped = false ∧
    (processJob packEditFails ["a"] ("a")).cleanup_calls = 1 :=
  ⟨rfl, rfl, rfl, rfl, rfl⟩

theorem tryBody_ignores_progress (o : Outcomes) (b0 b1 : Bool) :
    tryBody { o with progress0_edit_raises := b0, progress100_edit_raises := b1 } =
      tryBody o := by
  cases o
  unfold tryBody
  simp only [update_progress_eq]

/-- Claim C9 amended: failures of the two update_progress calls (the 0% and 100%
bar updates) are swallowed inside update_progress — never retried, never
user-visible, never affecting the job result or its cleanup; but the raw
packing/sending edits of the progress message are unprotected, and their
failure fails the job (generic failure message, no delivery; cleanup still
runs exactly once). -/
theorem spec_c9_progress_amended (o : Outcomes) (b0 b1 : Bool) (dirs : List String)
    (td : String) :
    update_progress b0 = Except.ok () ∧
    processJob { o with progress0_edit_raises := b0, progress100_edit_raises := b1 }
        dirs td =
      processJob o dirs td ∧
    (processJob packEditFails dirs td).failure_notified = true ∧
    (processJob packEditFails dirs td).delivered = false ∧
    (processJob packEditFails dirs td).cleanup_calls = 1 := by
  refine ⟨update_progress_eq b0, ?_, rfl, rfl, rfl⟩
  simp only [processJob, tryBody_ignores_progress]
